import Mathlib

/-!
Verification development for the VirtualRollCall in-memory attendance store
(`backend/utils/database.js`) and the `Class` data model
(`backend/models/Class.js`).

Modelling conventions:
* JS numbers used as identifiers/counts are `Nat`.
* ISO timestamp strings produced by `new Date().toISOString()` are modelled as
  an abstract `Nat` clock value passed in as a `now` argument to every
  mutating operation.
* Calendar-date strings `YYYY-MM-DD` are modelled as `Nat`; both the
  lexicographic string comparison used by date-range filters and the
  chronological comparison used by `new Date(b) - new Date(a)` sorting agree
  with the numeric order, so one `Nat` order models both.
* The mutable module-level `database` object and `counters` object are
  modelled by explicit state passing: a mutating JS function `f(args)` that
  updates `database` becomes a Lean function taking and returning the state.
* JS `findIndex` followed by in-place assignment at that index is modelled by
  `replaceFirst`, which replaces the first element satisfying the predicate.
* JS `Array.prototype.sort` (stable, ES2019) is modelled by `List.mergeSort`,
  which is stable.
-/

namespace VRC

/-- Embedded student sub-entity of a class in the store
(`utils/database.js`: objects created by `initializeDatabase` /
`addStudentToClass`). -/
structure ClassStudent where
  id : Nat
  name : String
  studentId : String
  email : String
  dateOfBirth : String
  parentContact : String
  isActive : Bool
  enrolledDate : Nat
  deriving Repr, DecidableEq

/-- A class record in the store. The JS field `section` is renamed
`sectionName` because `section` is a Lean keyword. -/
structure ClassRec where
  id : Nat
  name : String
  grade : Nat
  sectionName : String
  classTeacher : Nat
  academicYear : String
  maxStudents : Nat
  students : List ClassStudent
  isActive : Bool
  createdAt : Nat
  updatedAt : Nat
  deriving Repr, DecidableEq

/-- A subject record in the store. -/
structure Subject where
  id : Nat
  name : String
  code : String
  description : String
  isActive : Bool
  createdAt : Nat
  updatedAt : Nat
  deriving Repr, DecidableEq

/-- A schedule entry in the store. -/
structure Schedule where
  id : Nat
  teacherId : Nat
  classId : Nat
  subjectId : Nat
  dayOfWeek : String
  startTime : String
  endTime : String
  room : String
  isActive : Bool
  createdAt : Nat
  updatedAt : Nat
  deriving Repr, DecidableEq

/-- A user record in the store. -/
structure User where
  id : Nat
  username : String
  password : String
  role : String
  name : String
  email : String
  phone : String
  isActive : Bool
  createdAt : Nat
  updatedAt : Nat
  lastLogin : Option Nat
  loginCount : Nat
  deriving Repr, DecidableEq

/-- An attendance record (`database.attendance` elements). -/
structure AttendanceRecord where
  id : Nat
  teacherId : Nat
  classId : Nat
  subjectId : Nat
  date : Nat
  absentStudents : List Nat
  presentStudents : List Nat
  totalStudents : Nat
  submittedAt : Nat
  submittedBy : Nat
  notes : String
  createdAt : Nat
  updatedAt : Nat
  deriving Repr, DecidableEq

/-- The singleton settings record. -/
structure Settings where
  schoolName : String
  academicYear : String
  currentSemester : String
  attendanceDeadline : String
  timezone : String
  deriving Repr, DecidableEq

/-- The module-level `database` object of `utils/database.js`. -/
structure Database where
  users : List User
  classes : List ClassRec
  subjects : List Subject
  schedules : List Schedule
  attendance : List AttendanceRecord
  settings : Settings
  deriving Repr, DecidableEq

/-- The module-level `counters` object of `utils/database.js`. -/
structure Counters where
  users : Nat
  classes : Nat
  subjects : Nat
  schedules : Nat
  attendance : Nat
  students : Nat
  deriving Repr, DecidableEq

/-- The full mutable module state: `database` plus `counters`. -/
structure Store where
  db : Database
  counters : Counters
  deriving Repr, DecidableEq

/-- Replace the first element satisfying `p` by `x`; models JS `findIndex`
followed by assignment at the found index (no-op when nothing matches). -/
def replaceFirst (p : α → Bool) (x : α) : List α → List α
  | [] => []
  | a :: as => if p a then x :: as else a :: replaceFirst p x as

/-- `findClassById` (database.js line 358): first class with the given id,
active or not. -/
def findClassById (db : Database) (id : Nat) : Option ClassRec :=
  db.classes.find? (fun cls => cls.id == id)

/-- Filter object accepted by `getAllClasses`. -/
structure ClassFilters where
  grade : Option Nat := none
  teacherId : Option Nat := none
  deriving Repr, DecidableEq

/-- `getAllClasses` (database.js lines 360-372): active classes, optionally
narrowed by grade and class teacher. -/
def getAllClasses (db : Database) (filters : ClassFilters) : List ClassRec :=
  let classes := db.classes.filter (fun cls => cls.isActive)
  let classes := match filters.grade with
    | some g => classes.filter (fun cls => cls.grade == g)
    | none => classes
  match filters.teacherId with
    | some t => classes.filter (fun cls => cls.classTeacher == t)
    | none => classes

/-- `deleteClass` (database.js lines 401-408): soft-delete by flipping
`isActive` on the first class with the given id; `false` when absent. -/
def deleteClass (db : Database) (id : Nat) (now : Nat) : Bool × Database :=
  match db.classes.find? (fun cls => cls.id == id) with
  | none => (false, db)
  | some cls =>
      let cls' := { cls with isActive := false, updatedAt := now }
      (true, { db with classes := replaceFirst (fun c => c.id == id) cls' db.classes })

/-- `findSubjectById` (database.js line 467). -/
def findSubjectById (db : Database) (id : Nat) : Option Subject :=
  db.subjects.find? (fun s => s.id == id)

/-- Filter object accepted by `getAllSubjects`; `code` is a case-insensitive
substring filter in the JS. -/
structure SubjectFilters where
  code : Option String := none
  deriving Repr, DecidableEq

/-- Case-insensitive JS `a.toLowerCase().includes(b.toLowerCase())`:
substring containment after per-character lowercasing (performed on the
character list so the kernel can evaluate it). -/
def lowerIncludes (hay needle : String) : Bool :=
  decide ((needle.toList.map Char.toLower) <:+: (hay.toList.map Char.toLower))

/-- `getAllSubjects` (database.js lines 455-465). -/
def getAllSubjects (db : Database) (filters : SubjectFilters) : List Subject :=
  let subjects := db.subjects.filter (fun s => s.isActive)
  match filters.code with
  | some c => subjects.filter (fun s => lowerIncludes s.code c)
  | none => subjects

/-- `deleteSubject` (database.js lines 495-502). -/
def deleteSubject (db : Database) (id : Nat) (now : Nat) : Bool × Database :=
  match db.subjects.find? (fun s => s.id == id) with
  | none => (false, db)
  | some s =>
      let s' := { s with isActive := false, updatedAt := now }
      (true, { db with subjects := replaceFirst (fun x => x.id == id) s' db.subjects })

/-- `findScheduleById` (database.js line 525). -/
def findScheduleById (db : Database) (id : Nat) : Option Schedule :=
  db.schedules.find? (fun s => s.id == id)

/-- Filter object accepted by `getAllSchedules`. -/
structure ScheduleFilters where
  teacherId : Option Nat := none
  classId : Option Nat := none
  dayOfWeek : Option String := none
  deriving Repr, DecidableEq

/-- `getAllSchedules` (database.js lines 505-523). -/
def getAllSchedules (db : Database) (filters : ScheduleFilters) : List Schedule :=
  let schedules := db.schedules.filter (fun s => s.isActive)
  let schedules := match filters.teacherId with
    | some t => schedules.filter (fun s => s.teacherId == t)
    | none => schedules
  let schedules := match filters.classId with
    | some c => schedules.filter (fun s => s.classId == c)
    | none => schedules
  match filters.dayOfWeek with
    | some d => schedules.filter (fun s =>
        s.dayOfWeek.toList.map Char.toLower == d.toList.map Char.toLower)
    | none => schedules

/-- `deleteSchedule` (database.js lines 553-560). -/
def deleteSchedule (db : Database) (id : Nat) (now : Nat) : Bool × Database :=
  match db.schedules.find? (fun s => s.id == id) with
  | none => (false, db)
  | some s =>
      let s' := { s with isActive := false, updatedAt := now }
      (true, { db with schedules := replaceFirst (fun x => x.id == id) s' db.schedules })

/-- Caller-supplied data for `addStudentToClass`. -/
structure StudentData where
  name : String
  studentId : String
  email : String
  dateOfBirth : String
  parentContact : String
  deriving Repr, DecidableEq

/-- `addStudentToClass` (database.js lines 411-426): increments the student
counter, appends the new student to the class roster, stamps the class
updated.  Note: this store-level function performs NO capacity check. -/
def addStudentToClass (st : Store) (classId : Nat) (d : StudentData) (now : Nat) :
    Option ClassStudent × Store :=
  match st.db.classes.find? (fun cls => cls.id == classId) with
  | none => (none, st)
  | some cls =>
      let student : ClassStudent :=
        { id := st.counters.students + 1
          name := d.name
          studentId := d.studentId
          email := d.email
          dateOfBirth := d.dateOfBirth
          parentContact := d.parentContact
          isActive := true
          enrolledDate := now }
      let cls' := { cls with students := cls.students ++ [student], updatedAt := now }
      (some student,
        { db := { st.db with classes := replaceFirst (fun c => c.id == classId) cls' st.db.classes }
          counters := { st.counters with students := st.counters.students + 1 } })

/-- Caller-supplied payload of `addAttendanceRecord` (the `attendanceData`
object built by the POST /api/attendance route). -/
structure AttendanceData where
  teacherId : Nat
  classId : Nat
  subjectId : Nat
  date : Nat
  absentStudents : List Nat
  notes : String
  submittedBy : Nat
  deriving Repr, DecidableEq

/-- Predicate for the upsert key lookup in `addAttendanceRecord`
(database.js lines 592-596). -/
def matchesTriple (classId subjectId date : Nat) (r : AttendanceRecord) : Bool :=
  r.classId == classId && r.subjectId == subjectId && r.date == date

/-- `addAttendanceRecord` (database.js lines 590-624): upsert keyed on
(classId, subjectId, date).  `presentStudents` and `totalStudents` are
recomputed from the class's current active roster; when the key already
exists the first matching record is overwritten in place, keeping its id and
createdAt, otherwise a fresh id is allocated and the record appended. -/
def addAttendanceRecord (st : Store) (d : AttendanceData) (now : Nat) :
    AttendanceRecord × Store :=
  let existing? := st.db.attendance.find? (matchesTriple d.classId d.subjectId d.date)
  let classInfo := findClassById st.db d.classId
  let totalStudents := match classInfo with
    | some cls => (cls.students.filter (fun s => s.isActive)).length
    | none => 0
  let presentStudents := match classInfo with
    | some cls =>
        (cls.students.filter (fun s => s.isActive && !(d.absentStudents.contains s.id))).map
          (fun s => s.id)
    | none => []
  match existing? with
  | some ex =>
      let record : AttendanceRecord :=
        { id := ex.id
          teacherId := d.teacherId
          classId := d.classId
          subjectId := d.subjectId
          date := d.date
          absentStudents := d.absentStudents
          presentStudents := presentStudents
          totalStudents := totalStudents
          submittedAt := now
          submittedBy := d.submittedBy
          notes := d.notes
          createdAt := ex.createdAt
          updatedAt := now }
      let att := replaceFirst (matchesTriple d.classId d.subjectId d.date) record st.db.attendance
      (record, { st with db := { st.db with attendance := att } })
  | none =>
      let record : AttendanceRecord :=
        { id := st.counters.attendance + 1
          teacherId := d.teacherId
          classId := d.classId
          subjectId := d.subjectId
          date := d.date
          absentStudents := d.absentStudents
          presentStudents := presentStudents
          totalStudents := totalStudents
          submittedAt := now
          submittedBy := d.submittedBy
          notes := d.notes
          createdAt := now
          updatedAt := now }
      (record,
        { db := { st.db with attendance := st.db.attendance ++ [record] }
          counters := { st.counters with attendance := st.counters.attendance + 1 } })

/-- Filter object accepted by `getAttendanceRecords`. -/
structure AttendanceFilters where
  classId : Option Nat := none
  teacherId : Option Nat := none
  subjectId : Option Nat := none
  date : Option Nat := none
  dateRange : Option (Nat × Nat) := none
  studentId : Option Nat := none
  deriving Repr, DecidableEq

/-- `getAttendanceRecords` (database.js lines 626-658): successive narrowing
of the attendance collection by each supplied filter. -/
def getAttendanceRecords (db : Database) (f : AttendanceFilters) : List AttendanceRecord :=
  let records := db.attendance
  let records := match f.classId with
    | some c => records.filter (fun r => r.classId == c)
    | none => records
  let records := match f.teacherId with
    | some t => records.filter (fun r => r.teacherId == t)
    | none => records
  let records := match f.subjectId with
    | some sj => records.filter (fun r => r.subjectId == sj)
    | none => records
  let records := match f.date with
    | some dt => records.filter (fun r => r.date == dt)
    | none => records
  let records := match f.dateRange with
    | some (start, stop) => records.filter (fun r => start <= r.date && r.date <= stop)
    | none => records
  match f.studentId with
    | some sid =>
        records.filter (fun r => r.absentStudents.contains sid || r.presentStudents.contains sid)
    | none => records

/-- Partial-update payload of `updateAttendanceRecord`.  The JS function
spreads the whole `updateData` object over the stored record, so every
record field it mentions is updatable; the fields reachable from the
routes and the `updateData.classId || ...` / `updateData.absentStudents || ...`
fallbacks are modelled (a `none` field models a key absent from the JS
object; ids start at 1 so JS falsiness agrees with key absence). -/
structure AttendanceUpdate where
  classId : Option Nat := none
  subjectId : Option Nat := none
  date : Option Nat := none
  absentStudents : Option (List Nat) := none
  notes : Option String := none
  deriving Repr, DecidableEq

/-- `updateAttendanceRecord` (database.js lines 668-689): finds the record by
id, recomputes `presentStudents` / `totalStudents` against the current active
roster of `updateData.classId || record.classId`, then spreads the update
over the stored record. -/
def updateAttendanceRecord (db : Database) (id : Nat) (u : AttendanceUpdate) (now : Nat) :
    Option AttendanceRecord × Database :=
  match db.attendance.find? (fun r => r.id == id) with
  | none => (none, db)
  | some r0 =>
      let classInfo := findClassById db (u.classId.getD r0.classId)
      let totalStudents := match classInfo with
        | some cls => (cls.students.filter (fun s => s.isActive)).length
        | none => 0
      let absentStudents := u.absentStudents.getD r0.absentStudents
      let presentStudents := match classInfo with
        | some cls =>
            (cls.students.filter (fun s => s.isActive && !(absentStudents.contains s.id))).map
              (fun s => s.id)
        | none => []
      let r : AttendanceRecord :=
        { r0 with
          classId := u.classId.getD r0.classId
          subjectId := u.subjectId.getD r0.subjectId
          date := u.date.getD r0.date
          absentStudents := absentStudents
          notes := u.notes.getD r0.notes
          presentStudents := presentStudents
          totalStudents := totalStudents
          updatedAt := now }
      (some r, { db with attendance := replaceFirst (fun x => x.id == id) r db.attendance })

/-- One entry of a per-class / per-subject / per-day breakdown map inside the
statistics result; `label` carries the resolved class or subject name
(`none` for the daily map and for dangling foreign keys). -/
structure SummaryEntry where
  label : Option String
  totalRecords : Nat
  totalPresent : Nat
  totalAbsent : Nat
  deriving Repr, DecidableEq

/-- The object returned by `getAttendanceStatistics`.  JS objects keyed by
classId/subjectId/date are modelled as association lists in key insertion
order.  `attendanceRate` is the exact rational value whose two-decimal
rendering the JS `toFixed(2)` produces. -/
structure Stats where
  totalRecords : Nat
  totalStudents : Nat
  totalPresent : Nat
  totalAbsent : Nat
  attendanceRate : Rat
  classSummary : List (Nat × SummaryEntry)
  subjectSummary : List (Nat × SummaryEntry)
  dailySummary : List (Nat × SummaryEntry)
  deriving Repr, DecidableEq

/-- Create-if-absent-then-increment on an association list, as the JS
`if (!map[key]) map[key] = init; map[key].x += ...` pattern does on an
object (new keys appear after existing ones in insertion order). -/
def bumpSummary (key : Nat) (label : Option String) (present absent : Nat) :
    List (Nat × SummaryEntry) → List (Nat × SummaryEntry)
  | [] => [(key, { label := label, totalRecords := 1, totalPresent := present, totalAbsent := absent })]
  | (k, e) :: rest =>
      if k == key then
        (k, { e with totalRecords := e.totalRecords + 1,
                     totalPresent := e.totalPresent + present,
                     totalAbsent := e.totalAbsent + absent }) :: rest
      else (k, e) :: bumpSummary key label present absent rest

/-- The body of the `records.forEach` fold in `getAttendanceStatistics`. -/
def statsStep (db : Database) (acc : Stats) (r : AttendanceRecord) : Stats :=
  { acc with
    totalStudents := acc.totalStudents + r.totalStudents
    totalPresent := acc.totalPresent + r.presentStudents.length
    totalAbsent := acc.totalAbsent + r.absentStudents.length
    classSummary := bumpSummary r.classId ((findClassById db r.classId).map (fun c => c.name))
      r.presentStudents.length r.absentStudents.length acc.classSummary
    subjectSummary := bumpSummary r.subjectId ((findSubjectById db r.subjectId).map (fun s => s.name))
      r.presentStudents.length r.absentStudents.length acc.subjectSummary
    dailySummary := bumpSummary r.date none
      r.presentStudents.length r.absentStudents.length acc.dailySummary }

/-- Round a rational to two decimal places, as `toFixed(2)` renders
(JS rounds the decimal expansion to the nearest hundredth). -/
def roundTo2 (q : Rat) : Rat := (round (q * 100) : Int) / 100

/-- `getAttendanceStatistics` (database.js lines 700-765): folds the filtered
record set into totals, three breakdown maps, and the overall attendance
rate (present over total student-slots as a percentage, two decimals, 0
when there are no student-slots). -/
def statsInit (records : List AttendanceRecord) : Stats :=
  { totalRecords := records.length
    totalStudents := 0
    totalPresent := 0
    totalAbsent := 0
    attendanceRate := 0
    classSummary := []
    subjectSummary := []
    dailySummary := [] }

def getAttendanceStatistics (db : Database) (f : AttendanceFilters) : Stats :=
  let records := getAttendanceRecords db f
  let stats := records.foldl (statsStep db) (statsInit records)
  if stats.totalStudents > 0 then
    { stats with attendanceRate := roundTo2 ((stats.totalPresent : Rat) / (stats.totalStudents : Rat) * 100) }
  else stats

/-- One entry of the list returned by `getStudentAttendanceHistory`. -/
structure HistoryEntry where
  date : Nat
  classId : Nat
  className : Option String
  subjectId : Nat
  subjectName : Option String
  status : String
  submittedAt : Nat
  deriving Repr, DecidableEq

/-- The entry built for one record inside `getStudentAttendanceHistory`
(status is "present" when the student is in the present list, else
"absent"). -/
def historyEntry (db : Database) (studentId : Nat) (r : AttendanceRecord) : HistoryEntry :=
  { date := r.date
    classId := r.classId
    className := (findClassById db r.classId).map (fun c => c.name)
    subjectId := r.subjectId
    subjectName := (findSubjectById db r.subjectId).map (fun s => s.name)
    status := if r.presentStudents.contains studentId then "present" else "absent"
    submittedAt := r.submittedAt }

/-- Membership test selecting the records that contribute a history entry. -/
def touchesStudent (studentId : Nat) (r : AttendanceRecord) : Bool :=
  r.presentStudents.contains studentId || r.absentStudents.contains studentId

/-- `getStudentAttendanceHistory` (database.js lines 767-792): one entry per
filtered record mentioning the student, sorted by date descending (stable
sort, as JS `Array.prototype.sort`). -/
def getStudentAttendanceHistory (db : Database) (studentId : Nat) (f : AttendanceFilters) :
    List HistoryEntry :=
  let records := getAttendanceRecords db f
  let studentHistory := (records.filter (touchesStudent studentId)).map (historyEntry db studentId)
  studentHistory.mergeSort (fun a b => decide (b.date <= a.date))

/-- The snapshot produced by `exportDatabase` (database.js lines 803-809). -/
structure ExportData where
  users : List User
  classes : List ClassRec
  subjects : List Subject
  schedules : List Schedule
  attendance : List AttendanceRecord
  settings : Settings
  exportedAt : Nat
  version : String
  deriving Repr, DecidableEq

/-- `exportDatabase`: the whole store plus an export timestamp and version. -/
def exportDatabase (db : Database) (now : Nat) : ExportData :=
  { users := db.users
    classes := db.classes
    subjects := db.subjects
    schedules := db.schedules
    attendance := db.attendance
    settings := db.settings
    exportedAt := now
    version := "1.0.0" }

/-- The argument object of `importDatabase`; each collection key may be
absent (JS `importData.users || []`), as may `settings`. -/
structure ImportData where
  users : Option (List User) := none
  classes : Option (List ClassRec) := none
  subjects : Option (List Subject) := none
  schedules : Option (List Schedule) := none
  attendance : Option (List AttendanceRecord) := none
  settings : Option Settings := none
  deriving Repr, DecidableEq

/-- View an export snapshot as import input (all keys present). -/
def ExportData.toImport (e : ExportData) : ImportData :=
  { users := some e.users
    classes := some e.classes
    subjects := some e.subjects
    schedules := some e.schedules
    attendance := some e.attendance
    settings := some e.settings }

/-- JS `Math.max(...xs.map(f), 0)`. -/
def maxId (f : α → Nat) (l : List α) : Nat :=
  l.foldr (fun x acc => max (f x) acc) 0

/-- `importDatabase` (database.js lines 811-836): replaces every collection
(missing keys become empty lists; missing settings keep the current ones)
and recomputes every counter as the maximum id present (0 when empty).
The JS throw on non-object input cannot arise in the typed embedding. -/
def importDatabase (imp : ImportData) (st : Store) : Store :=
  let db : Database :=
    { users := imp.users.getD []
      classes := imp.classes.getD []
      subjects := imp.subjects.getD []
      schedules := imp.schedules.getD []
      attendance := imp.attendance.getD []
      settings := imp.settings.getD st.db.settings }
  let counters : Counters :=
    { users := maxId (fun u => u.id) db.users
      classes := maxId (fun c => c.id) db.classes
      subjects := maxId (fun s => s.id) db.subjects
      schedules := maxId (fun s => s.id) db.schedules
      attendance := maxId (fun a => a.id) db.attendance
      students := maxId (fun s => s.id) (db.classes.flatMap (fun c => c.students)) }
  { db := db, counters := counters }

/-- One result of `searchStudents`: the student annotated with the owning
class's id, name, and grade. -/
structure SearchResult where
  student : ClassStudent
  classId : Nat
  className : String
  grade : Nat
  deriving Repr, DecidableEq

/-- The per-student match test of `searchStudents`: active and a
case-insensitive substring match on name, external student-id, or email. -/
def studentMatches (searchTerm : String) (s : ClassStudent) : Bool :=
  s.isActive &&
    (lowerIncludes s.name searchTerm || lowerIncludes s.studentId searchTerm ||
      lowerIncludes s.email searchTerm)

/-- The object pushed for one match of `searchStudents`: the student spread
with the owning class's id, name, and grade. -/
def mkSearchResult (cls : ClassRec) (s : ClassStudent) : SearchResult :=
  { student := s, classId := cls.id, className := cls.name, grade := cls.grade }

/-- `searchStudents` (database.js lines 839-860): iterates over every class
(active or not) and every student of it, collecting matches in
class-then-student order. -/
def searchStudents (db : Database) (query : String) : List SearchResult :=
  db.classes.flatMap (fun cls =>
    (cls.students.filter (studentMatches query)).map (fun s => mkSearchResult cls s))

end VRC

namespace ClassModel

/-- An embedded student of the `Class` model (`backend/models/Class.js`);
optional JS fields defaulted to `null` are `Option`s. -/
structure Student where
  id : Nat
  name : String
  studentId : String
  email : Option String
  phone : Option String
  dateOfBirth : Option String
  gender : Option String
  parentContact : Option String
  parentEmail : Option String
  address : Option String
  isActive : Bool
  enrolledDate : Nat
  deriving Repr, DecidableEq

/-- The `Class` model of `backend/models/Class.js` (fields relevant to
enrollment; `section` is renamed `sectionName`, a Lean keyword). -/
structure Class where
  id : Option Nat
  name : String
  grade : Nat
  sectionName : String
  classTeacher : Option Nat
  academicYear : String
  maxStudents : Nat
  students : List Student
  subjects : List Nat
  room : Option String
  isActive : Bool
  createdAt : Nat
  updatedAt : Nat
  deriving Repr, DecidableEq

/-- `getActiveStudents` (Class.js line 116): students not soft-removed. -/
def Class.getActiveStudents (c : Class) : List Student :=
  c.students.filter (fun s => s.isActive)

/-- `getStudentCount` (Class.js line 130): number of active students. -/
def Class.getStudentCount (c : Class) : Nat :=
  c.getActiveStudents.length

/-- `isFull` (Class.js line 144): active-student count at or above
capacity. -/
def Class.isFull (c : Class) : Bool :=
  c.maxStudents <= c.getStudentCount

/-- `generateStudentId` (Class.js lines 420-425): max embedded id plus 1. -/
def Class.generateStudentId (c : Class) : Nat :=
  (c.students.foldl (fun m s => max m s.id) 0) + 1

/-- The caller-supplied data of `Class.addStudent`. -/
structure StudentData where
  name : String
  studentId : String
  email : Option String := none
  phone : Option String := none
  dateOfBirth : Option String := none
  gender : Option String := none
  parentContact : Option String := none
  parentEmail : Option String := none
  address : Option String := none
  deriving Repr, DecidableEq

/-- `Class.addStudent` (Class.js lines 159-195): throws when the class is at
capacity or the external student-id is already used by an active student;
otherwise appends a fresh active student and returns it with the updated
class. -/
def Class.addStudent (c : Class) (d : StudentData) (now : Nat) :
    Except String (Student × Class) :=
  if c.isFull then
    .error "Class has reached maximum capacity"
  else
    match c.students.find? (fun s => s.studentId == d.studentId && s.isActive) with
    | some _ => .error "Student with this ID already exists in the class"
    | none =>
        let student : Student :=
          { id := c.generateStudentId
            name := d.name
            studentId := d.studentId
            email := d.email
            phone := d.phone
            dateOfBirth := d.dateOfBirth
            gender := d.gender
            parentContact := d.parentContact
            parentEmail := d.parentEmail
            address := d.address
            isActive := true
            enrolledDate := now }
        .ok (student, { c with students := c.students ++ [student], updatedAt := now })

end ClassModel

namespace VRC

/-- Count of attendance records carrying a given (classId, subjectId, date)
upsert key. -/
def countTriple (db : Database) (classId subjectId date : Nat) : Nat :=
  db.attendance.countP (matchesTriple classId subjectId date)

lemma countP_replaceFirst {p : α → Bool} {x ex : α} {l : List α}
    (hx : p x = true) (hl : l.find? p = some ex) :
    (replaceFirst p x l).countP p = l.countP p := by
  induction l with
  | nil => simp at hl
  | cons a as ih =>
      by_cases ha : p a
      · simp [replaceFirst, ha, List.countP_cons, hx]
      · rw [List.find?_cons_of_neg _ ha] at hl
        simp [replaceFirst, ha, List.countP_cons, ih hl]

lemma find?_replaceFirst {p : α → Bool} {x ex : α} {l : List α}
    (hx : p x = true) (hl : l.find? p = some ex) :
    (replaceFirst p x l).find? p = some x := by
  induction l with
  | nil => simp at hl
  | cons a as ih =>
      by_cases ha : p a
      · simp [replaceFirst, ha, List.find?_cons_of_pos _ hx]
      · rw [List.find?_cons_of_neg _ ha] at hl
        simp [replaceFirst, ha, List.find?_cons_of_neg _ ha, ih hl]

lemma mem_replaceFirst {p : α → Bool} {x ex : α} {l : List α}
    (hl : l.find? p = some ex) : x ∈ replaceFirst p x l := by
  induction l with
  | nil => simp at hl
  | cons a as ih =>
      by_cases ha : p a
      · simp [replaceFirst, ha]
      · rw [List.find?_cons_of_neg _ ha] at hl
        simp [replaceFirst, ha, ih hl]

end VRC

namespace VRC

lemma addAttendance_key (st : Store) (d : AttendanceData) (now : Nat) :
    matchesTriple d.classId d.subjectId d.date (addAttendanceRecord st d now).1 = true := by
  unfold addAttendanceRecord
  cases st.db.attendance.find? (matchesTriple d.classId d.subjectId d.date) <;>
    simp [matchesTriple]

/-- C1: after any `addAttendanceRecord` call on a store holding at most one
record for the submitted (classId, subjectId, date) triple, exactly one
record with that triple exists, and when a record for the triple already
existed, the returned (overwriting) record keeps its id and original
createdAt timestamp. -/
theorem attendance_upsert_unique (st : Store) (d : AttendanceData) (now : Nat)
    (h : countTriple st.db d.classId d.subjectId d.date <= 1) :
    countTriple (addAttendanceRecord st d now).2.db d.classId d.subjectId d.date = 1 ∧
    ∀ ex, st.db.attendance.find? (matchesTriple d.classId d.subjectId d.date) = some ex →
      (addAttendanceRecord st d now).1.id = ex.id ∧
      (addAttendanceRecord st d now).1.createdAt = ex.createdAt := by
  cases hfind : st.db.attendance.find? (matchesTriple d.classId d.subjectId d.date) with
  | none =>
      refine ⟨?_, ?_⟩
      · have h0 : st.db.attendance.countP (matchesTriple d.classId d.subjectId d.date) = 0 := by
          rw [List.countP_eq_zero]
          intro a ha
          simpa using List.find?_eq_none.mp hfind a ha
        unfold countTriple
        simp [addAttendanceRecord, hfind, List.countP_append, h0, List.countP_cons, matchesTriple]
      · intro ex hex
        exact absurd hex (by simp)
  | some ex0 =>
      have hm : ex0 ∈ st.db.attendance := List.mem_of_find?_eq_some hfind
      have hp : matchesTriple d.classId d.subjectId d.date ex0 = true := List.find?_some hfind
      refine ⟨?_, ?_⟩
      · have h1 : 0 < st.db.attendance.countP (matchesTriple d.classId d.subjectId d.date) :=
          List.countP_pos_iff.mpr ⟨ex0, hm, hp⟩
        have hrw : (addAttendanceRecord st d now).2.db.attendance =
            replaceFirst (matchesTriple d.classId d.subjectId d.date)
              (addAttendanceRecord st d now).1 st.db.attendance := by
          simp [addAttendanceRecord, hfind]
        have heq : (addAttendanceRecord st d now).2.db.attendance.countP
              (matchesTriple d.classId d.subjectId d.date) =
            st.db.attendance.countP (matchesTriple d.classId d.subjectId d.date) := by
          rw [hrw]
          exact countP_replaceFirst (addAttendance_key st d now) hfind
        unfold countTriple at *
        omega
      · intro ex hex
        cases hex
        constructor <;> simp [addAttendanceRecord, hfind]

end VRC

namespace VRC

/-- Fixture: the default settings object. -/
def exSettings : Settings :=
  { schoolName := "Virtual Academy", academicYear := "2024-2025",
    currentSemester := "1st Semester", attendanceDeadline := "10:00", timezone := "UTC" }

/-- Fixture: an active student. -/
def exS1 : ClassStudent :=
  { id := 1, name := "John Smith", studentId := "ST24001",
    email := "john.smith@student.edu", dateOfBirth := "2009-05-15",
    parentContact := "+1-555-1001", isActive := true, enrolledDate := 0 }

/-- Fixture: a second active student. -/
def exS2 : ClassStudent :=
  { id := 2, name := "Emma Johnson", studentId := "ST24002",
    email := "emma.johnson@student.edu", dateOfBirth := "2009-03-22",
    parentContact := "+1-555-1002", isActive := true, enrolledDate := 0 }

/-- Fixture: a soft-removed student. -/
def exS3 : ClassStudent :=
  { id := 3, name := "Michael Brown", studentId := "ST24003",
    email := "michael.brown@student.edu", dateOfBirth := "2009-07-08",
    parentContact := "+1-555-1003", isActive := false, enrolledDate := 0 }

/-- Fixture: an active class with two active students and one removed one. -/
def exClass1 : ClassRec :=
  { id := 1, name := "10A", grade := 10, sectionName := "A", classTeacher := 2,
    academicYear := "2024-2025", maxStudents := 35,
    students := [exS1, exS2, exS3], isActive := true, createdAt := 0, updatedAt := 0 }

/-- Fixture: a subject. -/
def exSubj1 : Subject :=
  { id := 1, name := "Mathematics", code := "MATH", description := "Advanced Mathematics",
    isActive := true, createdAt := 0, updatedAt := 0 }

/-- Fixture: an attendance record for the triple (1, 1, 10). -/
def exRecA : AttendanceRecord :=
  { id := 7, teacherId := 2, classId := 1, subjectId := 1, date := 10,
    absentStudents := [2], presentStudents := [1], totalStudents := 2,
    submittedAt := 3, submittedBy := 2, notes := "", createdAt := 3, updatedAt := 3 }

/-- Fixture: a schedule entry. -/
def exSched1 : Schedule :=
  { id := 1, teacherId := 2, classId := 1, subjectId := 1, dayOfWeek := "Monday",
    startTime := "09:00", endTime := "09:50", room := "Room 101",
    isActive := true, createdAt := 0, updatedAt := 0 }

/-- Fixture: a database with one class, one subject, one schedule, and one
attendance record. -/
def exDb : Database :=
  { users := [], classes := [exClass1], subjects := [exSubj1], schedules := [exSched1],
    attendance := [exRecA], settings := exSettings }

/-- Fixture: the store around `exDb`. -/
def exStore : Store :=
  { db := exDb,
    counters := { users := 0, classes := 1, subjects := 1, schedules := 0,
                  attendance := 7, students := 3 } }

/-- Fixture: a resubmission payload for the triple (1, 1, 10). -/
def exData : AttendanceData :=
  { teacherId := 2, classId := 1, subjectId := 1, date := 10,
    absentStudents := [1], notes := "resubmitted", submittedBy := 2 }

theorem attendance_upsert_unique_witness :
    countTriple exStore.db 1 1 10 <= 1 ∧
    countTriple (addAttendanceRecord exStore exData 5).2.db 1 1 10 = 1 ∧
    (addAttendanceRecord exStore exData 5).1.id = 7 ∧
    (addAttendanceRecord exStore exData 5).1.createdAt = 3 := by
  have h := attendance_upsert_unique exStore exData 5 (by decide)
  exact ⟨by decide, h.1, (h.2 exRecA (by decide)).1, (h.2 exRecA (by decide)).2⟩

/-- C10: submitting attendance for a classId that matches no class does not
fail: a record is still written (created or overwriting) and returned, with
totalStudents 0 and an empty presentStudents list, whatever the
absentStudents argument. -/
theorem addAttendance_dangling_class (st : Store) (d : AttendanceData) (now : Nat)
    (h : findClassById st.db d.classId = none) :
    (addAttendanceRecord st d now).1.totalStudents = 0 ∧
    (addAttendanceRecord st d now).1.presentStudents = [] ∧
    (addAttendanceRecord st d now).1 ∈ (addAttendanceRecord st d now).2.db.attendance := by
  cases hfind : st.db.attendance.find? (matchesTriple d.classId d.subjectId d.date) with
  | none => refine ⟨?_, ?_, ?_⟩ <;> simp [addAttendanceRecord, hfind, h]
  | some ex0 =>
      refine ⟨?_, ?_, ?_⟩
      · simp [addAttendanceRecord, hfind, h]
      · simp [addAttendanceRecord, hfind, h]
      · have hrw : (addAttendanceRecord st d now).2.db.attendance =
            replaceFirst (matchesTriple d.classId d.subjectId d.date)
              (addAttendanceRecord st d now).1 st.db.attendance := by
          simp [addAttendanceRecord, hfind]
        rw [hrw]
        exact mem_replaceFirst hfind

/-- Fixture: a submission naming a classId (99) that no class carries. -/
def exDataMissing : AttendanceData :=
  { teacherId := 2, classId := 99, subjectId := 1, date := 11,
    absentStudents := [1, 2], notes := "", submittedBy := 2 }

theorem addAttendance_dangling_class_witness :
    findClassById exStore.db 99 = none ∧
    (addAttendanceRecord exStore exDataMissing 5).1.totalStudents = 0 ∧
    (addAttendanceRecord exStore exDataMissing 5).1.presentStudents = [] ∧
    (addAttendanceRecord exStore exDataMissing 5).1 ∈
      (addAttendanceRecord exStore exDataMissing 5).2.db.attendance := by
  have h := addAttendance_dangling_class exStore exDataMissing 5 (by decide)
  exact ⟨by decide, h.1, h.2.1, h.2.2⟩

end VRC

namespace VRC

/-- The ids of a class's active embedded students (the "active roster"). -/
def activeRosterIds (c : ClassRec) : List Nat :=
  (c.students.filter (fun s => s.isActive)).map (fun s => s.id)

lemma filter_map_ids (abs : List Nat) (l : List ClassStudent) :
    (l.filter (fun s => s.isActive && !(abs.contains s.id))).map (fun s => s.id) =
      ((l.filter (fun s => s.isActive)).map (fun s => s.id)).filter
        (fun x => !(abs.contains x)) := by
  induction l with
  | nil => rfl
  | cons a as ih =>
      by_cases ha : a.isActive <;> by_cases hc : a.id ∈ abs <;>
        simp_all [List.filter_cons]

lemma mem_rosterFilter_not_mem {abs roster : List Nat} {x : Nat}
    (hx : x ∈ roster.filter (fun y => !(abs.contains y))) : x ∉ abs := by
  have h := (List.mem_filter.mp hx).2
  simpa using h

/-- C2: every record written by `addAttendanceRecord` or
`updateAttendanceRecord` has disjoint present/absent lists, its
presentStudents are exactly the class's active roster ids minus the
submitted absent list, and totalStudents is the active roster size at the
time of the write. -/
theorem present_absent_consistent :
    (∀ (st : Store) (d : AttendanceData) (now : Nat) (c : ClassRec),
      findClassById st.db d.classId = some c →
      (∀ x ∈ (addAttendanceRecord st d now).1.presentStudents,
          x ∉ (addAttendanceRecord st d now).1.absentStudents) ∧
      (addAttendanceRecord st d now).1.absentStudents = d.absentStudents ∧
      (addAttendanceRecord st d now).1.presentStudents =
        (activeRosterIds c).filter (fun x => !(d.absentStudents.contains x)) ∧
      (addAttendanceRecord st d now).1.totalStudents =
        (c.students.filter (fun s => s.isActive)).length) ∧
    (∀ (db : Database) (id : Nat) (u : AttendanceUpdate) (now : Nat)
        (r0 : AttendanceRecord) (c : ClassRec),
      db.attendance.find? (fun x => x.id == id) = some r0 →
      findClassById db (u.classId.getD r0.classId) = some c →
      ∀ r, (updateAttendanceRecord db id u now).1 = some r →
        (∀ x ∈ r.presentStudents, x ∉ r.absentStudents) ∧
        r.absentStudents = u.absentStudents.getD r0.absentStudents ∧
        r.presentStudents = (activeRosterIds c).filter
          (fun x => !((u.absentStudents.getD r0.absentStudents).contains x)) ∧
        r.totalStudents = (c.students.filter (fun s => s.isActive)).length) := by
  constructor
  · intro st d now c hcls
    have hpres : (addAttendanceRecord st d now).1.presentStudents =
        (c.students.filter (fun s => s.isActive && !(d.absentStudents.contains s.id))).map
          (fun s => s.id) := by
      cases hfind : st.db.attendance.find? (matchesTriple d.classId d.subjectId d.date) <;>
        simp [addAttendanceRecord, hfind, hcls]
    have habs : (addAttendanceRecord st d now).1.absentStudents = d.absentStudents := by
      cases hfind : st.db.attendance.find? (matchesTriple d.classId d.subjectId d.date) <;>
        simp [addAttendanceRecord, hfind]
    have htot : (addAttendanceRecord st d now).1.totalStudents =
        (c.students.filter (fun s => s.isActive)).length := by
      cases hfind : st.db.attendance.find? (matchesTriple d.classId d.subjectId d.date) <;>
        simp [addAttendanceRecord, hfind, hcls]
    refine ⟨?_, habs, ?_, htot⟩
    · intro x hx
      rw [hpres, filter_map_ids] at hx
      rw [habs]
      exact mem_rosterFilter_not_mem hx
    · rw [hpres, filter_map_ids]
      rfl
  · intro db id u now r0 c h0 hcls r hr
    have hval : (updateAttendanceRecord db id u now).1 = some
        { r0 with
          classId := u.classId.getD r0.classId
          subjectId := u.subjectId.getD r0.subjectId
          date := u.date.getD r0.date
          absentStudents := u.absentStudents.getD r0.absentStudents
          notes := u.notes.getD r0.notes
          presentStudents :=
            (c.students.filter (fun s => s.isActive &&
              !((u.absentStudents.getD r0.absentStudents).contains s.id))).map (fun s => s.id)
          totalStudents := (c.students.filter (fun s => s.isActive)).length
          updatedAt := now } := by
      simp [updateAttendanceRecord, h0, hcls]
    rw [hval] at hr
    cases hr
    refine ⟨?_, rfl, ?_, rfl⟩
    · intro x hx
      simp only [filter_map_ids] at hx
      exact mem_rosterFilter_not_mem hx
    · simp only [filter_map_ids]
      rfl

theorem present_absent_consistent_witness :
    (findClassById exStore.db 1 = some exClass1) ∧
    ((∀ x ∈ (addAttendanceRecord exStore exData 5).1.presentStudents,
        x ∉ (addAttendanceRecord exStore exData 5).1.absentStudents) ∧
      (addAttendanceRecord exStore exData 5).1.absentStudents = exData.absentStudents ∧
      (addAttendanceRecord exStore exData 5).1.presentStudents =
        (activeRosterIds exClass1).filter (fun x => !(exData.absentStudents.contains x)) ∧
      (addAttendanceRecord exStore exData 5).1.totalStudents =
        (exClass1.students.filter (fun s => s.isActive)).length) ∧
    (exDb.attendance.find? (fun x => x.id == 7) = some exRecA) ∧
    ((updateAttendanceRecord exDb 7 { absentStudents := some [2] } 9).1 =
      some ((updateAttendanceRecord exDb 7 { absentStudents := some [2] } 9).1.getD exRecA)) ∧
    (∀ x ∈ ((updateAttendanceRecord exDb 7 { absentStudents := some [2] } 9).1.getD exRecA).presentStudents,
      x ∉ ((updateAttendanceRecord exDb 7 { absentStudents := some [2] } 9).1.getD exRecA).absentStudents) := by
  refine ⟨by decide, present_absent_consistent.1 exStore exData 5 exClass1 (by decide),
    by decide, by decide, ?_⟩
  exact (present_absent_consistent.2 exDb 7 { absentStudents := some [2] } 9 exRecA exClass1
    (by decide) (by decide) _ (by decide)).1

end VRC

namespace VRC

/-- C4 counterexample: `updateAttendanceRecord` spreads the whole update
object over the stored record, so an update carrying a classId moves the
record to a different triple: record 7 of `exDb` has classId 1, and updating
it with a classId of 2 yields a record with classId 2. -/
theorem update_can_move_record :
    ((updateAttendanceRecord exDb 7 { classId := some 2 } 9).1.map (fun r => r.classId)) =
      some 2 ∧
    (exDb.attendance.find? (fun r => r.id == 7)).map (fun r => r.classId) = some 1 := by
  decide

/-- C4 (amended): when the update object carries no classId, subjectId, or
date key (the shape the PUT route builds: only absentStudents and/or notes),
`updateAttendanceRecord` keeps the record's date/classId/subjectId and
recomputes presentStudents/totalStudents from the effective absent list
against the class's current active roster. -/
theorem update_frame (db : Database) (id : Nat) (u : AttendanceUpdate) (now : Nat)
    (r0 : AttendanceRecord)
    (h0 : db.attendance.find? (fun x => x.id == id) = some r0)
    (hcid : u.classId = none) (hsid : u.subjectId = none) (hdt : u.date = none) :
    (updateAttendanceRecord db id u now).1.isSome = true ∧
    ∀ r, (updateAttendanceRecord db id u now).1 = some r →
      r.classId = r0.classId ∧ r.subjectId = r0.subjectId ∧ r.date = r0.date ∧
      r.notes = u.notes.getD r0.notes ∧
      r.absentStudents = u.absentStudents.getD r0.absentStudents ∧
      ∀ c, findClassById db r0.classId = some c →
        r.totalStudents = (c.students.filter (fun s => s.isActive)).length ∧
        r.presentStudents = (activeRosterIds c).filter
          (fun x => !((u.absentStudents.getD r0.absentStudents).contains x)) := by
  constructor
  · simp [updateAttendanceRecord, h0]
  · intro r hr
    cases hcls : findClassById db r0.classId with
    | none =>
        have hval : (updateAttendanceRecord db id u now).1 = some
            { r0 with
              absentStudents := u.absentStudents.getD r0.absentStudents
              notes := u.notes.getD r0.notes
              presentStudents := []
              totalStudents := 0
              updatedAt := now } := by
          simp [updateAttendanceRecord, h0, hcid, hsid, hdt, hcls]
        rw [hval] at hr
        cases hr
        refine ⟨rfl, rfl, rfl, rfl, rfl, ?_⟩
        intro c hc2
        cases hc2
    | some c0 =>
        have hval : (updateAttendanceRecord db id u now).1 = some
            { r0 with
              absentStudents := u.absentStudents.getD r0.absentStudents
              notes := u.notes.getD r0.notes
              presentStudents :=
                (c0.students.filter (fun s => s.isActive &&
                  !((u.absentStudents.getD r0.absentStudents).contains s.id))).map (fun s => s.id)
              totalStudents := (c0.students.filter (fun s => s.isActive)).length
              updatedAt := now } := by
          simp [updateAttendanceRecord, h0, hcid, hsid, hdt, hcls]
        rw [hval] at hr
        cases hr
        refine ⟨rfl, rfl, rfl, rfl, rfl, ?_⟩
        intro c hc2
        cases hc2
        refine ⟨rfl, ?_⟩
        rw [filter_map_ids]
        rfl

/-- Fixture: an update payload touching only absentStudents and notes. -/
def exUpd : AttendanceUpdate := { absentStudents := some [1, 2], notes := some "corrected" }

theorem update_frame_witness :
    (exDb.attendance.find? (fun x => x.id == 7) = some exRecA) ∧
    (updateAttendanceRecord exDb 7 exUpd 9).1.isSome = true ∧
    (∀ r, (updateAttendanceRecord exDb 7 exUpd 9).1 = some r →
      r.classId = exRecA.classId ∧ r.subjectId = exRecA.subjectId ∧ r.date = exRecA.date) := by
  have h := update_frame exDb 7 exUpd 9 exRecA (by decide) rfl rfl rfl
  exact ⟨by decide, h.1, fun r hr =>
    ⟨((h.2 r hr).1), ((h.2 r hr).2.1), ((h.2 r hr).2.2.1)⟩⟩

end VRC

namespace VRC

lemma deleteClass_spec {db : Database} {id : Nat} {c : ClassRec} (now : Nat)
    (h : db.classes.find? (fun x => x.id == id) = some c) :
    deleteClass db id now = (true, { db with classes := replaceFirst (fun x => x.id == id) { c with isActive := false, updatedAt := now } db.classes }) := by
  unfold deleteClass
  rw [h]

lemma deleteSubject_spec {db : Database} {id : Nat} {c : Subject} (now : Nat)
    (h : db.subjects.find? (fun x => x.id == id) = some c) :
    deleteSubject db id now = (true, { db with subjects := replaceFirst (fun x => x.id == id) { c with isActive := false, updatedAt := now } db.subjects }) := by
  unfold deleteSubject
  rw [h]

lemma deleteSchedule_spec {db : Database} {id : Nat} {c : Schedule} (now : Nat)
    (h : db.schedules.find? (fun x => x.id == id) = some c) :
    deleteSchedule db id now = (true, { db with schedules := replaceFirst (fun x => x.id == id) { c with isActive := false, updatedAt := now } db.schedules }) := by
  unfold deleteSchedule
  rw [h]

/-- C8: soft-delete (deleteClass / deleteSubject / deleteSchedule) is
idempotent: a second call on an already soft-deleted id still succeeds
(returns true) and leaves the record inactive; findById still returns the
inactive record, while the default findAll view excludes it. -/
theorem soft_delete_idem :
    (∀ (db : Database) (id now now2 : Nat) (c : ClassRec),
      db.classes.find? (fun x => x.id == id) = some c →
      (deleteClass db id now).1 = true ∧
      (deleteClass (deleteClass db id now).2 id now2).1 = true ∧
      ∃ c', findClassById (deleteClass (deleteClass db id now).2 id now2).2 id = some c' ∧
        c'.isActive = false ∧
        c' ∉ getAllClasses (deleteClass (deleteClass db id now).2 id now2).2 {}) ∧
    (∀ (db : Database) (id now now2 : Nat) (s : Subject),
      db.subjects.find? (fun x => x.id == id) = some s →
      (deleteSubject db id now).1 = true ∧
      (deleteSubject (deleteSubject db id now).2 id now2).1 = true ∧
      ∃ s', findSubjectById (deleteSubject (deleteSubject db id now).2 id now2).2 id = some s' ∧
        s'.isActive = false ∧
        s' ∉ getAllSubjects (deleteSubject (deleteSubject db id now).2 id now2).2 {}) ∧
    (∀ (db : Database) (id now now2 : Nat) (s : Schedule),
      db.schedules.find? (fun x => x.id == id) = some s →
      (deleteSchedule db id now).1 = true ∧
      (deleteSchedule (deleteSchedule db id now).2 id now2).1 = true ∧
      ∃ s', findScheduleById (deleteSchedule (deleteSchedule db id now).2 id now2).2 id = some s' ∧
        s'.isActive = false ∧
        s' ∉ getAllSchedules (deleteSchedule (deleteSchedule db id now).2 id now2).2 {}) := by
  refine ⟨?_, ?_, ?_⟩
  · intro db id now now2 c h
    have hcid := List.find?_some h
    have hstep1 := deleteClass_spec now h
    have hfind1 : (deleteClass db id now).2.classes.find? (fun x => x.id == id) =
        some ({ c with isActive := false, updatedAt := now }) := by
      rw [hstep1]
      exact find?_replaceFirst hcid h
    have hstep2 := deleteClass_spec now2 hfind1
    have hfind2 : (deleteClass (deleteClass db id now).2 id now2).2.classes.find?
        (fun x => x.id == id) = some ({ c with isActive := false, updatedAt := now2 }) := by
      rw [hstep2, hstep1]
      exact find?_replaceFirst hcid (by rw [hstep1] at hfind1; exact hfind1)
    refine ⟨by rw [hstep1], by rw [hstep2],
      { c with isActive := false, updatedAt := now2 }, hfind2, rfl, ?_⟩
    intro hmem
    have hact : ({ c with isActive := false, updatedAt := now2 } : ClassRec).isActive = true := by
      simp only [getAllClasses] at hmem
      exact (List.mem_filter.mp hmem).2
    simp at hact
  · intro db id now now2 s h
    have hcid := List.find?_some h
    have hstep1 := deleteSubject_spec now h
    have hfind1 : (deleteSubject db id now).2.subjects.find? (fun x => x.id == id) =
        some ({ s with isActive := false, updatedAt := now }) := by
      rw [hstep1]
      exact find?_replaceFirst hcid h
    have hstep2 := deleteSubject_spec now2 hfind1
    have hfind2 : (deleteSubject (deleteSubject db id now).2 id now2).2.subjects.find?
        (fun x => x.id == id) = some ({ s with isActive := false, updatedAt := now2 }) := by
      rw [hstep2, hstep1]
      exact find?_replaceFirst hcid (by rw [hstep1] at hfind1; exact hfind1)
    refine ⟨by rw [hstep1], by rw [hstep2],
      { s with isActive := false, updatedAt := now2 }, hfind2, rfl, ?_⟩
    intro hmem
    have hact : ({ s with isActive := false, updatedAt := now2 } : Subject).isActive = true := by
      simp only [getAllSubjects] at hmem
      exact (List.mem_filter.mp hmem).2
    simp at hact
  · intro db id now now2 s h
    have hcid := List.find?_some h
    have hstep1 := deleteSchedule_spec now h
    have hfind1 : (deleteSchedule db id now).2.schedules.find? (fun x => x.id == id) =
        some ({ s with isActive := false, updatedAt := now }) := by
      rw [hstep1]
      exact find?_replaceFirst hcid h
    have hstep2 := deleteSchedule_spec now2 hfind1
    have hfind2 : (deleteSchedule (deleteSchedule db id now).2 id now2).2.schedules.find?
        (fun x => x.id == id) = some ({ s with isActive := false, updatedAt := now2 }) := by
      rw [hstep2, hstep1]
      exact find?_replaceFirst hcid (by rw [hstep1] at hfind1; exact hfind1)
    refine ⟨by rw [hstep1], by rw [hstep2],
      { s with isActive := false, updatedAt := now2 }, hfind2, rfl, ?_⟩
    intro hmem
    have hact : ({ s with isActive := false, updatedAt := now2 } : Schedule).isActive = true := by
      simp only [getAllSchedules] at hmem
      exact (List.mem_filter.mp hmem).2
    simp at hact

theorem soft_delete_idem_witness :
    (exDb.classes.find? (fun x => x.id == 1) = some exClass1) ∧
    (deleteClass exDb 1 4).1 = true ∧
    (deleteClass (deleteClass exDb 1 4).2 1 5).1 = true ∧
    (exDb.subjects.find? (fun x => x.id == 1) = some exSubj1) ∧
    (deleteSubject exDb 1 4).1 = true ∧
    (deleteSubject (deleteSubject exDb 1 4).2 1 5).1 = true ∧
    (exDb.schedules.find? (fun x => x.id == 1) = some exSched1) ∧
    (deleteSchedule exDb 1 4).1 = true ∧
    (deleteSchedule (deleteSchedule exDb 1 4).2 1 5).1 = true := by
  have hc := soft_delete_idem.1 exDb 1 4 5 exClass1 (by decide)
  have hs := soft_delete_idem.2.1 exDb 1 4 5 exSubj1 (by decide)
  have hd := soft_delete_idem.2.2 exDb 1 4 5 exSched1 (by decide)
  exact ⟨by decide, hc.1, hc.2.1, by decide, hs.1, hs.2.1, by decide, hd.1, hd.2.1⟩

end VRC

namespace VRC

/-- Fixture: a class already at capacity (maxStudents 1, one active
student). -/
def exCapClass : ClassRec :=
  { id := 1, name := "10C", grade := 10, sectionName := "C", classTeacher := 2,
    academicYear := "2024-2025", maxStudents := 1, students := [exS1],
    isActive := true, createdAt := 0, updatedAt := 0 }

/-- Fixture: a store holding only the full class. -/
def exStoreCap : Store :=
  { db := { users := [], classes := [exCapClass], subjects := [], schedules := [],
            attendance := [], settings := exSettings },
    counters := { users := 0, classes := 1, subjects := 0, schedules := 0,
                  attendance := 0, students := 1 } }

/-- Fixture: a student to enroll. -/
def exNewStudent : StudentData :=
  { name := "Zoe Park", studentId := "ST24099", email := "zoe.park@student.edu",
    dateOfBirth := "2009-01-01", parentContact := "+1-555-1099" }

/-- C3 counterexample: the store-level `addStudentToClass` performs no
capacity check — on a class whose active-student count (1) already equals
maxStudents (1) the add succeeds and the active count grows to 2, exceeding
maxStudents. -/
theorem addStudentToClass_no_capacity_check :
    ((addStudentToClass exStoreCap 1 exNewStudent 9).1).isSome = true ∧
    (findClassById exStoreCap.db 1).map (fun c => c.maxStudents) = some 1 ∧
    (findClassById exStoreCap.db 1).map
      (fun c => (c.students.filter (fun s => s.isActive)).length) = some 1 ∧
    (findClassById (addStudentToClass exStoreCap 1 exNewStudent 9).2.db 1).map
      (fun c => (c.students.filter (fun s => s.isActive)).length) = some 2 := by
  decide

/-- C3 (amended): the capacity rejection lives in the `Class` model, not the
store: `Class.addStudent` rejects with a capacity error when the count of
active students is at or above maxStudents (returning no modified class, so
the roster is unchanged), and any successful add keeps the active count
within maxStudents. -/
theorem class_model_capacity (c : ClassModel.Class) (d : ClassModel.StudentData) (now : Nat) :
    (c.isFull = true → c.addStudent d now = Except.error "Class has reached maximum capacity") ∧
    (c.getStudentCount <= c.maxStudents →
      ∀ s c', c.addStudent d now = Except.ok (s, c') →
        c'.getStudentCount <= c'.maxStudents) := by
  constructor
  · intro hf
    simp [ClassModel.Class.addStudent, hf]
  · intro _ s c' hok
    by_cases hf : c.isFull
    · simp [ClassModel.Class.addStudent, hf] at hok
    · have hlt : c.getStudentCount < c.maxStudents := by
        unfold ClassModel.Class.isFull at hf
        simp at hf
        omega
      cases hfind : c.students.find? (fun x => x.studentId == d.studentId && x.isActive) with
      | some _ => simp [ClassModel.Class.addStudent, hf, hfind] at hok
      | none =>
          simp [ClassModel.Class.addStudent, hf, hfind] at hok
          obtain ⟨_, hc'⟩ := hok
          subst hc'
          unfold ClassModel.Class.getStudentCount ClassModel.Class.getActiveStudents at *
          simp [List.filter_append]
          omega

/-- Fixture: a full `Class`-model class (capacity 1, one active student). -/
def exMStudent : ClassModel.Student :=
  { id := 1, name := "John Smith", studentId := "ST24001",
    email := some "john.smith@student.edu", phone := none, dateOfBirth := none,
    gender := none, parentContact := none, parentEmail := none, address := none,
    isActive := true, enrolledDate := 0 }

/-- Fixture: a full model class. -/
def exMClassFull : ClassModel.Class :=
  { id := some 1, name := "10A", grade := 10, sectionName := "A", classTeacher := some 2,
    academicYear := "2024-2025", maxStudents := 1, students := [exMStudent],
    subjects := [], room := none, isActive := true, createdAt := 0, updatedAt := 0 }

/-- Fixture: a model class with a free seat. -/
def exMClass : ClassModel.Class :=
  { exMClassFull with maxStudents := 2 }

/-- Fixture: enrollment data for the model class. -/
def exMData : ClassModel.StudentData :=
  { name := "Zoe Park", studentId := "ST24099" }

theorem class_model_capacity_witness :
    (exMClassFull.isFull = true) ∧
    (exMClassFull.addStudent exMData 9 = Except.error "Class has reached maximum capacity") ∧
    (exMClass.getStudentCount <= exMClass.maxStudents) ∧
    (∀ s c', exMClass.addStudent exMData 9 = Except.ok (s, c') →
      c'.getStudentCount <= c'.maxStudents) := by
  refine ⟨by decide, (class_model_capacity exMClassFull exMData 9).1 (by decide), by decide,
    (class_model_capacity exMClass exMData 9).2 (by decide)⟩

end VRC

namespace VRC

/-- Fixture: an active student of the soft-deleted class. -/
def exAnn : ClassStudent :=
  { id := 10, name := "Ann Lee", studentId := "ST24050",
    email := "ann.lee@student.edu", dateOfBirth := "2010-02-02",
    parentContact := "+1-555-1050", isActive := true, enrolledDate := 0 }

/-- Fixture: a soft-deleted (inactive) class holding the active student. -/
def exInactiveClass : ClassRec :=
  { id := 5, name := "9Z", grade := 9, sectionName := "Z", classTeacher := 2,
    academicYear := "2024-2025", maxStudents := 35, students := [exAnn],
    isActive := false, createdAt := 0, updatedAt := 0 }

/-- Fixture: a database whose only class is inactive. -/
def exDbSearch : Database :=
  { users := [], classes := [exInactiveClass], subjects := [], schedules := [],
    attendance := [], settings := exSettings }

/-- C9 counterexample: `searchStudents` does not restrict the scan to active
classes — in a database whose only class is soft-deleted, its matching
active student is still returned. -/
theorem searchStudents_scans_inactive_classes :
    searchStudents exDbSearch "ann" = [mkSearchResult exInactiveClass exAnn] ∧
    exDbSearch.classes.all (fun c => !c.isActive) = true := by
  decide

/-- C9 (amended): `searchStudents` returns exactly the active students of
every class — active or soft-deleted alike — whose name, external
student-id, or email contains the query case-insensitively, each annotated
with the owning class's id, name, and grade, and equals the filtered
class-then-student traversal of the store (no ranking). -/
theorem searchStudents_spec (db : Database) (q : String) :
    (∀ res, res ∈ searchStudents db q ↔
      ∃ cls, cls ∈ db.classes ∧ ∃ s, s ∈ cls.students ∧ studentMatches q s = true ∧
        res = mkSearchResult cls s) ∧
    searchStudents db q =
      ((db.classes.flatMap (fun cls => cls.students.map (fun s => (cls, s)))).filter
        (fun p => studentMatches q p.2)).map (fun p => mkSearchResult p.1 p.2) := by
  constructor
  · intro res
    unfold searchStudents
    simp only [List.mem_flatMap, List.mem_map, List.mem_filter]
    constructor
    · rintro ⟨cls, hcls, s, ⟨hs, hm⟩, hres⟩
      exact ⟨cls, hcls, s, hs, hm, hres.symm⟩
    · rintro ⟨cls, hcls, s, hs, hm, hres⟩
      exact ⟨cls, hcls, s, ⟨hs, hm⟩, hres.symm⟩
  · unfold searchStudents
    induction db.classes with
    | nil => rfl
    | cons cls rest ih =>
        simp only [List.flatMap_cons, List.filter_append, List.map_append, ih]
        congr 1
        induction cls.students with
        | nil => rfl
        | cons s ss ihs =>
            by_cases hm : studentMatches q s <;>
              simp [List.filter_cons, hm, ihs]

end VRC

namespace VRC

lemma statsFold_totals (db : Database) (recs : List AttendanceRecord) (acc : Stats) :
    (recs.foldl (statsStep db) acc).totalRecords = acc.totalRecords ∧
    (recs.foldl (statsStep db) acc).totalStudents =
      acc.totalStudents + (recs.map (fun r => r.totalStudents)).sum ∧
    (recs.foldl (statsStep db) acc).totalPresent =
      acc.totalPresent + (recs.map (fun r => r.presentStudents.length)).sum ∧
    (recs.foldl (statsStep db) acc).totalAbsent =
      acc.totalAbsent + (recs.map (fun r => r.absentStudents.length)).sum ∧
    (recs.foldl (statsStep db) acc).attendanceRate = acc.attendanceRate := by
  induction recs generalizing acc with
  | nil => simp
  | cons r rs ih =>
      obtain ⟨h1, h2, h3, h4, h5⟩ := ih (statsStep db acc r)
      rw [List.foldl_cons]
      refine ⟨?_, ?_, ?_, ?_, ?_⟩
      · rw [h1]; simp [statsStep]
      · rw [h2]; simp only [statsStep, List.map_cons, List.sum_cons]; omega
      · rw [h3]; simp only [statsStep, List.map_cons, List.sum_cons]; omega
      · rw [h4]; simp only [statsStep, List.map_cons, List.sum_cons]; omega
      · rw [h5]; simp [statsStep]

/-- Fixture: attendance record with 5 absent out of 20. -/
def exStatRec1 : AttendanceRecord :=
  { id := 1, teacherId := 2, classId := 1, subjectId := 1, date := 20241104,
    absentStudents := [1, 2, 3, 4, 5],
    presentStudents := (List.range 15).map (fun i => i + 6), totalStudents := 20,
    submittedAt := 1, submittedBy := 2, notes := "", createdAt := 1, updatedAt := 1 }

/-- Fixture: attendance record with 0 absent out of 20, a day later. -/
def exStatRec2 : AttendanceRecord :=
  { id := 2, teacherId := 2, classId := 1, subjectId := 1, date := 20241105,
    absentStudents := [],
    presentStudents := (List.range 20).map (fun i => i + 1), totalStudents := 20,
    submittedAt := 2, submittedBy := 2, notes := "", createdAt := 2, updatedAt := 2 }

/-- Fixture: a database holding the two scenario records. -/
def exDbStats : Database :=
  { users := [], classes := [], subjects := [], schedules := [],
    attendance := [exStatRec1, exStatRec2], settings := exSettings }

/-- C5: `getAttendanceStatistics` reports totalRecords as the filtered
record count, totalStudents/totalPresent/totalAbsent as the respective sums
over the filtered records, and attendanceRate as present over total student
slots as a percentage rounded to two decimals (0 when there are no student
slots); on the concrete two-record scenario (5 absent of 20, then 0 absent
of 20) it reports 2 records, 35 present, 5 absent, and a rate of 87.50. -/
theorem stats_spec :
    (∀ (db : Database) (f : AttendanceFilters),
      (getAttendanceStatistics db f).totalRecords = (getAttendanceRecords db f).length ∧
      (getAttendanceStatistics db f).totalStudents =
        ((getAttendanceRecords db f).map (fun r => r.totalStudents)).sum ∧
      (getAttendanceStatistics db f).totalPresent =
        ((getAttendanceRecords db f).map (fun r => r.presentStudents.length)).sum ∧
      (getAttendanceStatistics db f).totalAbsent =
        ((getAttendanceRecords db f).map (fun r => r.absentStudents.length)).sum ∧
      (getAttendanceStatistics db f).attendanceRate =
        (if (getAttendanceStatistics db f).totalStudents = 0 then 0
         else roundTo2 (((getAttendanceStatistics db f).totalPresent : Rat) /
           ((getAttendanceStatistics db f).totalStudents : Rat) * 100))) ∧
    ((getAttendanceStatistics exDbStats { classId := some 1, subjectId := some 1 }).totalRecords = 2 ∧
     (getAttendanceStatistics exDbStats { classId := some 1, subjectId := some 1 }).totalPresent = 35 ∧
     (getAttendanceStatistics exDbStats { classId := some 1, subjectId := some 1 }).totalAbsent = 5 ∧
     (getAttendanceStatistics exDbStats { classId := some 1, subjectId := some 1 }).attendanceRate =
       (8750 : Rat) / 100) := by
  have hgen : ∀ (db : Database) (f : AttendanceFilters),
      (getAttendanceStatistics db f).totalRecords = (getAttendanceRecords db f).length ∧
      (getAttendanceStatistics db f).totalStudents =
        ((getAttendanceRecords db f).map (fun r => r.totalStudents)).sum ∧
      (getAttendanceStatistics db f).totalPresent =
        ((getAttendanceRecords db f).map (fun r => r.presentStudents.length)).sum ∧
      (getAttendanceStatistics db f).totalAbsent =
        ((getAttendanceRecords db f).map (fun r => r.absentStudents.length)).sum ∧
      (getAttendanceStatistics db f).attendanceRate =
        (if (getAttendanceStatistics db f).totalStudents = 0 then 0
         else roundTo2 (((getAttendanceStatistics db f).totalPresent : Rat) /
           ((getAttendanceStatistics db f).totalStudents : Rat) * 100)) := by
    intro db f
    obtain ⟨h1, h2, h3, h4, h5⟩ := statsFold_totals db (getAttendanceRecords db f)
      (statsInit (getAttendanceRecords db f))
    have hdef : getAttendanceStatistics db f =
        (if 0 < ((getAttendanceRecords db f).foldl (statsStep db)
            (statsInit (getAttendanceRecords db f))).totalStudents then
          { (getAttendanceRecords db f).foldl (statsStep db)
              (statsInit (getAttendanceRecords db f)) with
            attendanceRate := roundTo2 (((((getAttendanceRecords db f).foldl (statsStep db)
                (statsInit (getAttendanceRecords db f))).totalPresent : Nat) : Rat) /
              (((((getAttendanceRecords db f).foldl (statsStep db)
                (statsInit (getAttendanceRecords db f))).totalStudents : Nat)) : Rat) * 100) }
        else (getAttendanceRecords db f).foldl (statsStep db)
            (statsInit (getAttendanceRecords db f))) := rfl
    by_cases hpos : 0 < ((getAttendanceRecords db f).foldl (statsStep db)
        (statsInit (getAttendanceRecords db f))).totalStudents
    · rw [hdef, if_pos hpos]
      have hne : ¬(((getAttendanceRecords db f).foldl (statsStep db)
          (statsInit (getAttendanceRecords db f))).totalStudents = 0) := by omega
      refine ⟨h1, by simpa [statsInit] using h2, by simpa [statsInit] using h3,
        by simpa [statsInit] using h4, by simp [hne]⟩
    · rw [hdef, if_neg hpos]
      have h0 : ((getAttendanceRecords db f).foldl (statsStep db)
          (statsInit (getAttendanceRecords db f))).totalStudents = 0 := by omega
      refine ⟨h1, by simpa [statsInit] using h2, by simpa [statsInit] using h3,
        by simpa [statsInit] using h4, ?_⟩
      rw [h5, h0]
      simp [statsInit]
  refine ⟨hgen, by decide, by decide, by decide, ?_⟩
  have h := (hgen exDbStats { classId := some 1, subjectId := some 1 }).2.2.2.2
  rw [show (getAttendanceStatistics exDbStats
      { classId := some 1, subjectId := some 1 }).totalStudents = 40 from by decide,
    show (getAttendanceStatistics exDbStats
      { classId := some 1, subjectId := some 1 }).totalPresent = 35 from by decide] at h
  rw [h, if_neg (by norm_num)]
  norm_num [roundTo2, round_eq]

end VRC

namespace VRC

lemma le_maxId (f : α → Nat) : ∀ {l : List α} {x : α}, x ∈ l → f x <= maxId f l := by
  intro l
  induction l with
  | nil => intro x h; cases h
  | cons a as ih =>
      intro x h
      rcases List.mem_cons.mp h with rfl | h2
      · exact le_max_left _ _
      · exact le_trans (ih h2) (le_max_right _ _)

/-- C6: importing the export of a store into any store reproduces the
exported database exactly (all five collections and the settings), and every
recomputed collection counter bounds every id present in that collection, so
the next id the corresponding create would allocate (counter + 1) collides
with no existing id. -/
theorem export_import_round_trip (db : Database) (now : Nat) (st0 : Store) :
    (importDatabase (ExportData.toImport (exportDatabase db now)) st0).db = db ∧
    (∀ u ∈ db.users,
      u.id <= (importDatabase (ExportData.toImport (exportDatabase db now)) st0).counters.users ∧
      u.id ≠ (importDatabase (ExportData.toImport (exportDatabase db now)) st0).counters.users + 1) ∧
    (∀ c ∈ db.classes,
      c.id <= (importDatabase (ExportData.toImport (exportDatabase db now)) st0).counters.classes ∧
      c.id ≠ (importDatabase (ExportData.toImport (exportDatabase db now)) st0).counters.classes + 1) ∧
    (∀ sj ∈ db.subjects,
      sj.id <= (importDatabase (ExportData.toImport (exportDatabase db now)) st0).counters.subjects ∧
      sj.id ≠ (importDatabase (ExportData.toImport (exportDatabase db now)) st0).counters.subjects + 1) ∧
    (∀ sc ∈ db.schedules,
      sc.id <= (importDatabase (ExportData.toImport (exportDatabase db now)) st0).counters.schedules ∧
      sc.id ≠ (importDatabase (ExportData.toImport (exportDatabase db now)) st0).counters.schedules + 1) ∧
    (∀ a ∈ db.attendance,
      a.id <= (importDatabase (ExportData.toImport (exportDatabase db now)) st0).counters.attendance ∧
      a.id ≠ (importDatabase (ExportData.toImport (exportDatabase db now)) st0).counters.attendance + 1) ∧
    (∀ c ∈ db.classes, ∀ s ∈ c.students,
      s.id <= (importDatabase (ExportData.toImport (exportDatabase db now)) st0).counters.students ∧
      s.id ≠ (importDatabase (ExportData.toImport (exportDatabase db now)) st0).counters.students + 1) := by
  have hdb : (importDatabase (ExportData.toImport (exportDatabase db now)) st0).db = db := rfl
  have hcu : (importDatabase (ExportData.toImport (exportDatabase db now)) st0).counters.users =
      maxId (fun u => u.id) db.users := rfl
  have hcc : (importDatabase (ExportData.toImport (exportDatabase db now)) st0).counters.classes =
      maxId (fun c => c.id) db.classes := rfl
  have hcsj : (importDatabase (ExportData.toImport (exportDatabase db now)) st0).counters.subjects =
      maxId (fun s => s.id) db.subjects := rfl
  have hcsc : (importDatabase (ExportData.toImport (exportDatabase db now)) st0).counters.schedules =
      maxId (fun s => s.id) db.schedules := rfl
  have hca : (importDatabase (ExportData.toImport (exportDatabase db now)) st0).counters.attendance =
      maxId (fun a => a.id) db.attendance := rfl
  have hcst : (importDatabase (ExportData.toImport (exportDatabase db now)) st0).counters.students =
      maxId (fun s => s.id) (db.classes.flatMap (fun c => c.students)) := rfl
  refine ⟨hdb, ?_, ?_, ?_, ?_, ?_, ?_⟩
  · intro u hu
    have hle : u.id <= maxId (fun u => u.id) db.users := le_maxId (fun u => u.id) hu
    rw [hcu]
    exact ⟨hle, by omega⟩
  · intro c hc
    have hle : c.id <= maxId (fun c => c.id) db.classes := le_maxId (fun c => c.id) hc
    rw [hcc]
    exact ⟨hle, by omega⟩
  · intro sj hsj
    have hle : sj.id <= maxId (fun s => s.id) db.subjects := le_maxId (fun s => s.id) hsj
    rw [hcsj]
    exact ⟨hle, by omega⟩
  · intro sc hsc
    have hle : sc.id <= maxId (fun s => s.id) db.schedules := le_maxId (fun s => s.id) hsc
    rw [hcsc]
    exact ⟨hle, by omega⟩
  · intro a ha
    have hle : a.id <= maxId (fun a => a.id) db.attendance := le_maxId (fun a => a.id) ha
    rw [hca]
    exact ⟨hle, by omega⟩
  · intro c hc st hst
    have hmem : st ∈ db.classes.flatMap (fun c => c.students) :=
      List.mem_flatMap.mpr ⟨c, hc, hst⟩
    have hle : st.id <= maxId (fun s => s.id) (db.classes.flatMap (fun c => c.students)) :=
      le_maxId (fun s => s.id) hmem
    rw [hcst]
    exact ⟨hle, by omega⟩

/-- C7: the student attendance history contains exactly one entry (built by
`historyEntry`) per filtered record in which the student appears in the
present or the absent list, sorted by date descending; each entry's status is
"present" exactly when the student is in that record's present list. -/
theorem history_spec (db : Database) (sid : Nat) (f : AttendanceFilters) :
    List.Perm (getStudentAttendanceHistory db sid f)
      (((getAttendanceRecords db f).filter (touchesStudent sid)).map (historyEntry db sid)) ∧
    (getStudentAttendanceHistory db sid f).length =
      ((getAttendanceRecords db f).filter (touchesStudent sid)).length ∧
    (getStudentAttendanceHistory db sid f).Pairwise (fun a b => b.date <= a.date) ∧
    (∀ e ∈ getStudentAttendanceHistory db sid f,
      ∃ r, r ∈ getAttendanceRecords db f ∧ touchesStudent sid r = true ∧
        e = historyEntry db sid r ∧
        (e.status = "present" ↔ r.presentStudents.contains sid = true)) := by
  refine ⟨?_, ?_, ?_, ?_⟩
  · unfold getStudentAttendanceHistory
    exact List.mergeSort_perm _ _
  · unfold getStudentAttendanceHistory
    simp
  · unfold getStudentAttendanceHistory
    have hs := @List.sorted_mergeSort HistoryEntry
      (fun a b => decide ((b : HistoryEntry).date <= a.date))
      (fun a b c h1 h2 => by
        simp only [decide_eq_true_eq] at *
        omega)
      (fun a b => by
        simp only [Bool.or_eq_true, decide_eq_true_eq]
        omega)
      (((getAttendanceRecords db f).filter (touchesStudent sid)).map (historyEntry db sid))
    exact hs.imp (fun h => by simpa using h)
  · intro e he
    unfold getStudentAttendanceHistory at he
    rw [List.mem_mergeSort] at he
    obtain ⟨r, hr, rfl⟩ := List.mem_map.mp he
    obtain ⟨hrmem, hrtouch⟩ := List.mem_filter.mp hr
    refine ⟨r, hrmem, hrtouch, rfl, ?_⟩
    by_cases hc : r.presentStudents.contains sid = true
    · simp [historyEntry, hc]
    · simp only [historyEntry, hc, if_neg, Bool.false_eq_true, iff_false]
      simp [hc]

end VRC

namespace VRC

theorem export_import_round_trip_witness :
    (importDatabase (ExportData.toImport (exportDatabase exDb 9)) exStore).db = exDb ∧
    (exRecA ∈ exDb.attendance) ∧
    exRecA.id <=
      (importDatabase (ExportData.toImport (exportDatabase exDb 9)) exStore).counters.attendance ∧
    exRecA.id ≠
      (importDatabase (ExportData.toImport (exportDatabase exDb 9)) exStore).counters.attendance + 1 := by
  have h := export_import_round_trip exDb 9 exStore
  exact ⟨h.1, by decide, (h.2.2.2.2.2.1 exRecA (by decide)).1, (h.2.2.2.2.2.1 exRecA (by decide)).2⟩

theorem history_spec_witness :
    (getStudentAttendanceHistory exDbStats 1 {}).length =
      ((getAttendanceRecords exDbStats {}).filter (touchesStudent 1)).length ∧
    (getStudentAttendanceHistory exDbStats 1 {}).Pairwise (fun a b => b.date <= a.date) ∧
    (historyEntry exDbStats 1 exStatRec2 ∈ getStudentAttendanceHistory exDbStats 1 {}) ∧
    (∃ r, r ∈ getAttendanceRecords exDbStats {} ∧ touchesStudent 1 r = true ∧
      historyEntry exDbStats 1 exStatRec2 = historyEntry exDbStats 1 r ∧
      ((historyEntry exDbStats 1 exStatRec2).status = "present" ↔
        r.presentStudents.contains 1 = true)) := by
  have h := history_spec exDbStats 1 {}
  have hm : historyEntry exDbStats 1 exStatRec2 ∈ getStudentAttendanceHistory exDbStats 1 {} := by
    unfold getStudentAttendanceHistory
    rw [List.mem_mergeSort]
    decide
  exact ⟨h.2.1, h.2.2.1, hm, h.2.2.2 (historyEntry exDbStats 1 exStatRec2) hm⟩

theorem searchStudents_spec_witness :
    searchStudents exDbSearch "ann" =
      ((exDbSearch.classes.flatMap (fun cls => cls.students.map (fun s => (cls, s)))).filter
        (fun p => studentMatches "ann" p.2)).map (fun p => mkSearchResult p.1 p.2) ∧
    (mkSearchResult exInactiveClass exAnn ∈ searchStudents exDbSearch "ann") := by
  have h := searchStudents_spec exDbSearch "ann"
  exact ⟨h.2, (h.1 (mkSearchResult exInactiveClass exAnn)).mpr
    ⟨exInactiveClass, by decide, exAnn, by decide, by decide, rfl⟩⟩

end VRC
